import Mathlib

/- A shallow embedding of the Pushover client library
   (src/Pushover/__init__.py).  Python dictionaries holding the form
   fields of a request are modelled as association lists in insertion
   order; the HTTP transport and the file system are modelled as
   explicit parameters, so every operation is a total function of its
   arguments together with the behaviour of the outside world.
   Exceptions are modelled with Except; the three exception kinds the
   code can produce (ValueError, PushoverError, KeyError) become the
   constructors of PyErr. -/

set_option autoImplicit false
set_option linter.unusedVariables false

instance {ε α : Type _} [DecidableEq ε] [DecidableEq α] : DecidableEq (Except ε α) := fun x y =>
  match x, y with
  | .ok a, .ok b =>
    if h : a = b then isTrue (h ▸ rfl) else isFalse (fun hc => h (Except.ok.inj hc))
  | .error a, .error b =>
    if h : a = b then isTrue (h ▸ rfl) else isFalse (fun hc => h (Except.error.inj hc))
  | .ok _, .error _ => isFalse (fun hc => Except.noConfusion hc)
  | .error _, .ok _ => isFalse (fun hc => Except.noConfusion hc)

/-- Form-field and JSON values: the code only stores strings and
integers in its payload dictionaries and only compares decoded body
fields against integers. -/
inductive PVal where
  | int (n : Int)
  | str (s : String)
deriving DecidableEq

abbrev Payload := List (String × PVal)

/-- First-match key lookup in a payload or decoded JSON object,
mirroring a Python dictionary access. -/
def lookupKey (p : Payload) (k : String) : Option PVal :=
  List.lookup k p

/-- Whether a payload carries the key at all. -/
def hasKey (p : Payload) (k : String) : Bool :=
  p.any (fun e => e.1 == k)

/-- The Priority enum of the source. -/
inductive Priority where
  | LOWEST
  | LOW
  | NORMAL
  | HIGH
  | EMERGENCY
deriving DecidableEq

/-- Numeric value of each Priority member. -/
def Priority.val : Priority → Int
  | .LOWEST => -2
  | .LOW => -1
  | .NORMAL => 0
  | .HIGH => 1
  | .EMERGENCY => 2

/-- Python truthiness of an Optional[str]: None and the empty string
are falsy. -/
def optStrTruthy : Option String → Bool
  | none => false
  | some s => s != ""

/-- Python truthiness of an Optional[int]: None and 0 are falsy. -/
def optIntTruthy : Option Int → Bool
  | none => false
  | some n => n != 0

/-- The GlancesData dataclass: every field defaults to None. -/
structure GlancesData where
  title : Option String := none
  text : Option String := none
  subtext : Option String := none
  count : Option Int := none
  percent : Option Int := none
deriving DecidableEq

/-- GlancesData.validate of the source.  A raised ValueError with its
message becomes an error result; falling through becomes ok.  Note the
length checks are guarded by truthiness of the field while the percent
check is guarded by an explicit None test, exactly as in the code. -/
def GlancesData.validate (g : GlancesData) : Except String Unit :=
  if optStrTruthy g.title ∧ (g.title.getD "").length > 100 then
    .error "title must be 100 characters or less"
  else if optStrTruthy g.text ∧ (g.text.getD "").length > 100 then
    .error "text must be 100 characters or less"
  else if optStrTruthy g.subtext ∧ (g.subtext.getD "").length > 100 then
    .error "subtext must be 100 characters or less"
  else if g.percent.isSome ∧ ¬(0 ≤ g.percent.getD 0 ∧ g.percent.getD 0 ≤ 100) then
    .error "percent must be between 0 and 100"
  else
    .ok ()

/-- GlancesData.to_dict of the source: each field is inserted exactly
when it is not None. -/
def GlancesData.to_dict (g : GlancesData) : Payload :=
  (match g.title with | some t => [("title", PVal.str t)] | none => [])
  ++ (match g.text with | some t => [("text", PVal.str t)] | none => [])
  ++ (match g.subtext with | some t => [("subtext", PVal.str t)] | none => [])
  ++ (match g.count with | some n => [("count", PVal.int n)] | none => [])
  ++ (match g.percent with | some n => [("percent", PVal.int n)] | none => [])

/-- The exceptions the source can raise: ValueError from validation,
PushoverError from the client, and KeyError from a missing dictionary
key. -/
inductive PyErr where
  | valueError (msg : String)
  | pushoverError (msg : String)
  | keyError (key : String)
deriving DecidableEq

/-- The PushoverResponse dataclass (fields taken verbatim from a decoded
body, so they are modelled as JSON values). -/
structure PushoverResponse where
  status : PVal
  request_id : PVal
  receipt : Option PVal := none
deriving DecidableEq

/-- The behaviour of one HTTP round trip: either a response with an HTTP
status code and a body whose JSON decoding may fail (the decode failure
message is the string), or a transport-level exception
(requests.exceptions.RequestException). -/
inductive TransportResult where
  | ok (status_code : Int) (body : Except String Payload)
  | netError (msg : String)
deriving DecidableEq

/-- Rendering of a body value inside an error message. -/
def pvalText : PVal → String
  | .int n => toString n
  | .str s => s

/-- The text interpolated for the errors field of the body, with the
Unknown error default, as in the non-200 branch of the source. -/
def errorsText (data : Payload) : String :=
  match lookupKey data "errors" with
  | some v => pvalText v
  | none => "[Unknown error]"

/-- Response handling of send_message, lines 162-180 of the source: a
transport exception and a JSON decode failure (a RequestException
subclass) are wrapped into PushoverError; a non-200 status raises
PushoverError with the error list; otherwise the fields status and
request are read with bare indexing (KeyError when absent) and receipt
with .get. -/
def handleResponse (tr : TransportResult) : Except PyErr PushoverResponse :=
  match tr with
  | .netError e => .error (.pushoverError ("Request failed: " ++ e))
  | .ok code body =>
    match body with
    | .error e => .error (.pushoverError ("Request failed: " ++ e))
    | .ok data =>
      if code ≠ 200 then
        .error (.pushoverError ("API request failed: " ++ errorsText data))
      else
        match lookupKey data "status" with
        | none => .error (.keyError "status")
        | some st =>
          match lookupKey data "request" with
          | none => .error (.keyError "request")
          | some rq => .ok { status := st, request_id := rq, receipt := lookupKey data "receipt" }

/-- The arguments of Pushover.send_message with their defaults. -/
structure SendArgs where
  user_key : String
  message : String
  title : Option String := none
  device : Option String := none
  priority : Priority := Priority.NORMAL
  sound : Option String := none
  url : Option String := none
  url_title : Option String := none
  timestamp : Option Int := none
  html : Bool := false
  monospace : Bool := false
  ttl : Option Int := none
  retry : Option Int := none
  expire : Option Int := none
  callback_url : Option String := none
  attachment : Option String := none

/-- Conditional dictionary insertion: the entry is present exactly when
the guard (the Python truthiness of the value) holds. -/
def optEntry (b : Bool) (k : String) (v : PVal) : Payload :=
  if b then [(k, v)] else []

/-- Payload construction of send_message, lines 120-136 of the source:
the four required fields followed by each optional field inserted only
when truthy. -/
def basePayload (tok : String) (a : SendArgs) : Payload :=
  [("token", PVal.str tok), ("user", PVal.str a.user_key),
   ("message", PVal.str a.message), ("priority", PVal.int a.priority.val)]
  ++ optEntry (optStrTruthy a.title) "title" (PVal.str (a.title.getD ""))
  ++ optEntry (optStrTruthy a.device) "device" (PVal.str (a.device.getD ""))
  ++ optEntry (optStrTruthy a.sound) "sound" (PVal.str (a.sound.getD ""))
  ++ optEntry (optStrTruthy a.url) "url" (PVal.str (a.url.getD ""))
  ++ optEntry (optStrTruthy a.url_title) "url_title" (PVal.str (a.url_title.getD ""))
  ++ optEntry (optIntTruthy a.timestamp) "timestamp" (PVal.int (a.timestamp.getD 0))
  ++ optEntry a.html "html" (PVal.int 1)
  ++ optEntry a.monospace "monospace" (PVal.int 1)
  ++ optEntry (optIntTruthy a.ttl) "ttl" (PVal.int (a.ttl.getD 0))

/-- Emergency-priority handling of send_message, lines 139-150 of the
source: the missing test is Python truthiness (so None and 0 both count
as missing), then retry is bounded below, then expire is bounded above,
and on success retry, expire and a truthy callback are appended. -/
def emergencyExtra (a : SendArgs) : Except PyErr Payload :=
  if a.priority = Priority.EMERGENCY then
    if optIntTruthy a.retry = false ∨ optIntTruthy a.expire = false then
      .error (.valueError "Emergency priority requires retry and expire parameters")
    else if a.retry.getD 0 < 30 then
      .error (.valueError "retry must be at least 30 seconds")
    else if a.expire.getD 0 > 10800 then
      .error (.valueError "expire must be at most 10800 seconds (3 hours)")
    else
      .ok ([("retry", PVal.int (a.retry.getD 0)), ("expire", PVal.int (a.expire.getD 0))]
        ++ optEntry (optStrTruthy a.callback_url) "callback" (PVal.str (a.callback_url.getD "")))
  else
    .ok []

/-- The full outgoing payload of send_message, or the ValueError raised
by the emergency validation. -/
def sendPayload (tok : String) (a : SendArgs) : Except PyErr Payload :=
  match emergencyExtra a with
  | .error e => .error e
  | .ok ex => .ok (basePayload tok a ++ ex)

/-- Attachment handling, lines 152-159 of the source: when the
attachment argument is truthy the file is opened (the file system is the
op parameter); any failure is wrapped into PushoverError.  The Bool
records whether a file part was attached. -/
def attachmentStep (op : String → Except String Unit) (a : SendArgs) : Except PyErr Bool :=
  if optStrTruthy a.attachment then
    match op (a.attachment.getD "") with
    | .ok _ => .ok true
    | .error e => .error (.pushoverError ("Failed to read attachment: " ++ e))
  else
    .ok false

/-- Result of a client operation: the returned value or raised
exception, together with whether the HTTP request was issued at all. -/
structure SendResult where
  outcome : Except PyErr PushoverResponse
  requestSent : Bool
deriving DecidableEq

/-- Pushover.send_message: payload construction and emergency
validation, then attachment opening, and only then the HTTP round
trip. -/
def send_message (tok : String) (a : SendArgs) (op : String → Except String Unit)
    (tr : TransportResult) : SendResult :=
  match sendPayload tok a with
  | .error e => ⟨.error e, false⟩
  | .ok _ =>
    match attachmentStep op a with
    | .error e => ⟨.error e, false⟩
    | .ok _ => ⟨handleResponse tr, true⟩

/-- Payload of Pushover.validate_user. -/
def validateUserPayload (tok : String) (user_key : String) (device : Option String) : Payload :=
  [("token", PVal.str tok), ("user", PVal.str user_key)]
  ++ optEntry (optStrTruthy device) "device" (PVal.str (device.getD ""))

/-- Pushover.validate_user, lines 200-208 of the source: the whole round
trip sits under a bare except returning False, and on a decoded body the
result is the comparison data.get of status against 1 — the HTTP status
code is never consulted. -/
def validate_user (tok : String) (user_key : String) (device : Option String)
    (tr : TransportResult) : Bool :=
  match tr with
  | .netError _ => false
  | .ok _ body =>
    match body with
    | .error _ => false
    | .ok data => lookupKey data "status" == some (PVal.int 1)

/-- The behaviour of the cancel round trip: the body is never decoded,
so only the HTTP status code or a raised exception matters. -/
inductive CancelTransport where
  | ok (status_code : Int)
  | exn (msg : String)
deriving DecidableEq

/-- Pushover.cancel_emergency, lines 246-253 of the source: True exactly
when the status code is 200, and a bare except turns any raised
exception into False. -/
def cancel_emergency (tok : String) (receipt : String) (tr : CancelTransport) : Bool :=
  match tr with
  | .ok code => code == 200
  | .exn _ => false

/-- Payload of Pushover.update_glance. -/
def glancePayload (tok : String) (user_key : String) (g : GlancesData)
    (device : Option String) : Payload :=
  [("token", PVal.str tok), ("user", PVal.str user_key)] ++ g.to_dict
  ++ optEntry (optStrTruthy device) "device" (PVal.str (device.getD ""))

/-- Response handling of update_glance, lines 318-335 of the source:
identical to the send path except that the result never carries a
receipt. -/
def handleGlanceResponse (tr : TransportResult) : Except PyErr PushoverResponse :=
  match tr with
  | .netError e => .error (.pushoverError ("Request failed: " ++ e))
  | .ok code body =>
    match body with
    | .error e => .error (.pushoverError ("Request failed: " ++ e))
    | .ok data =>
      if code ≠ 200 then
        .error (.pushoverError ("API request failed: " ++ errorsText data))
      else
        match lookupKey data "status" with
        | none => .error (.keyError "status")
        | some st =>
          match lookupKey data "request" with
          | none => .error (.keyError "request")
          | some rq => .ok { status := st, request_id := rq, receipt := none }

/-- Pushover.update_glance: validation first (a ValueError propagates
and nothing is sent), then the round trip. -/
def update_glance (tok : String) (user_key : String) (g : GlancesData)
    (device : Option String) (tr : TransportResult) : SendResult :=
  match g.validate with
  | .error m => ⟨.error (.valueError m), false⟩
  | .ok _ => ⟨handleGlanceResponse tr, true⟩

/-! Helper lemmas about payload keys and the error paths. -/

theorem hasKey_append (p q : Payload) (k : String) :
    hasKey (p ++ q) k = (hasKey p k || hasKey q k) := by
  simp [hasKey]

theorem hasKey_optEntry (b : Bool) (k k' : String) (v : PVal) :
    hasKey (optEntry b k v) k' = (b && (k == k')) := by
  cases b <;> simp [optEntry, hasKey]

theorem hasKey_cons (e : String × PVal) (p : Payload) (k : String) :
    hasKey (e :: p) k = ((e.1 == k) || hasKey p k) := by
  simp [hasKey]

theorem hasKey_nil (k : String) : hasKey [] k = false := rfl

theorem emergencyExtra_ok_cases (a : SendArgs) (ex : Payload) (h : emergencyExtra a = .ok ex) :
    ex = [] ∨
      ex = [("retry", PVal.int (a.retry.getD 0)), ("expire", PVal.int (a.expire.getD 0))]
        ++ optEntry (optStrTruthy a.callback_url) "callback" (PVal.str (a.callback_url.getD "")) := by
  unfold emergencyExtra at h
  split at h
  · split at h
    · exact absurd h (by simp)
    · split at h
      · exact absurd h (by simp)
      · split at h
        · exact absurd h (by simp)
        · right
          exact (Except.ok.inj h).symm
  · left
    exact (Except.ok.inj h).symm

theorem hasKey_emergencyExtra (a : SendArgs) (ex : Payload) (h : emergencyExtra a = .ok ex)
    (k : String) (h1 : ("retry" == k) = false) (h2 : ("expire" == k) = false)
    (h3 : ("callback" == k) = false) :
    hasKey ex k = false := by
  rcases emergencyExtra_ok_cases a ex h with rfl | rfl
  · rfl
  · simp [hasKey_append, hasKey_optEntry, hasKey_cons, hasKey_nil, h1, h2, h3]

theorem handleResponse_not_valueError (tr : TransportResult) (m : String) :
    handleResponse tr ≠ .error (.valueError m) := by
  unfold handleResponse
  repeat' split
  all_goals simp

theorem attachmentStep_err_shape (op : String → Except String Unit) (a : SendArgs)
    (e : PyErr) (h : attachmentStep op a = .error e) :
    ∃ s, e = PyErr.pushoverError s := by
  unfold attachmentStep at h
  split at h
  · split at h
    · exact absurd h (by simp)
    · exact ⟨_, (Except.error.inj h).symm⟩
  · exact absurd h (by simp)

theorem send_message_no_valueError (tok : String) (a : SendArgs)
    (op : String → Except String Unit) (tr : TransportResult) (ex : Payload)
    (h : emergencyExtra a = .ok ex) (m : String) :
    (send_message tok a op tr).outcome ≠ .error (.valueError m) := by
  have hsp : sendPayload tok a = .ok (basePayload tok a ++ ex) := by
    unfold sendPayload; rw [h]
  unfold send_message
  rw [hsp]
  cases hat : attachmentStep op a with
  | error e =>
    obtain ⟨s, rfl⟩ := attachmentStep_err_shape op a e hat
    simp
  | ok b =>
    simpa using handleResponse_not_valueError tr m

theorem send_message_of_extra_error (tok : String) (a : SendArgs)
    (op : String → Except String Unit) (tr : TransportResult) (e : PyErr)
    (h : emergencyExtra a = .error e) :
    send_message tok a op tr = ⟨.error e, false⟩ := by
  have hsp : sendPayload tok a = .error e := by
    unfold sendPayload; rw [h]
  unfold send_message
  rw [hsp]

theorem length_ne_empty (t : String) (h : t.length = 101) : t ≠ "" := by
  intro hc
  rw [hc] at h
  simp at h

/-! Claim theorems. -/

/-- Claim C1, counterexample to the claim as stated: with priority
EMERGENCY, retry = 30 and expire = 0 both supplied, the claim puts the
call in its accepted case (retry is at least 30 and expire is at most
10800), yet send_message raises the missing-parameter ValidationError,
because the source tests the parameters with Python truthiness and a
supplied 0 counts as missing. -/
theorem C1_counterexample :
    send_message "t" { user_key := "u", message := "m", priority := .EMERGENCY, retry := some 30, expire := some 0 }
        (fun _ => .ok ()) (.ok 200 (.ok [("status", PVal.int 1), ("request", PVal.str "r")])) =
      ⟨.error (.valueError "Emergency priority requires retry and expire parameters"), false⟩ := by
  decide

/-- Claim C1 as amended: for priority EMERGENCY, a retry or expire that
is missing or zero (Python-falsy) raises the missing-parameter
ValidationError before any request is sent; otherwise a supplied retry
below 30 raises the retry ValidationError, then a supplied expire above
10800 raises the expire ValidationError, and the boundary values
retry = 30 and expire = 10800 are accepted with no ValidationError. -/
theorem C1_emergency_validation (tok : String) (a : SendArgs)
    (op : String → Except String Unit) (tr : TransportResult)
    (hp : a.priority = Priority.EMERGENCY) :
    ((optIntTruthy a.retry = false ∨ optIntTruthy a.expire = false) →
      send_message tok a op tr =
        ⟨.error (.valueError "Emergency priority requires retry and expire parameters"), false⟩) ∧
    (optIntTruthy a.retry = true → optIntTruthy a.expire = true → a.retry.getD 0 < 30 →
      send_message tok a op tr =
        ⟨.error (.valueError "retry must be at least 30 seconds"), false⟩) ∧
    (optIntTruthy a.retry = true → optIntTruthy a.expire = true → ¬ a.retry.getD 0 < 30 →
      a.expire.getD 0 > 10800 →
      send_message tok a op tr =
        ⟨.error (.valueError "expire must be at most 10800 seconds (3 hours)"), false⟩) ∧
    (a.retry = some 30 → a.expire = some 10800 →
      ∀ m, (send_message tok a op tr).outcome ≠ .error (.valueError m)) := by
  refine ⟨?_, ?_, ?_, ?_⟩
  · intro hmiss
    apply send_message_of_extra_error
    rcases hmiss with h | h <;> simp [emergencyExtra, hp, h]
  · intro htr hte hlt
    apply send_message_of_extra_error
    simp [emergencyExtra, hp, htr, hte, hlt]
  · intro htr hte hge hgt
    apply send_message_of_extra_error
    simp [emergencyExtra, hp, htr, hte, hge, hgt]
  · intro h30 h10800 m
    cases hex : emergencyExtra a with
    | error e =>
      simp [emergencyExtra, hp, h30, h10800, optIntTruthy] at hex
    | ok ex =>
      exact send_message_no_valueError tok a op tr ex hex m

/-- Witness for C1: the four branches of the amended claim at concrete
inputs — both fields missing, retry 29, expire 10801, and the accepted
boundary pair 30 and 10800. -/
theorem C1_emergency_validation_witness :
    send_message "t" { user_key := "u", message := "m", priority := .EMERGENCY } (fun _ => .ok ()) (.netError "x") =
      ⟨.error (.valueError "Emergency priority requires retry and expire parameters"), false⟩ ∧
    send_message "t" { user_key := "u", message := "m", priority := .EMERGENCY, retry := some 29, expire := some 600 } (fun _ => .ok ()) (.netError "x") =
      ⟨.error (.valueError "retry must be at least 30 seconds"), false⟩ ∧
    send_message "t" { user_key := "u", message := "m", priority := .EMERGENCY, retry := some 30, expire := some 10801 } (fun _ => .ok ()) (.netError "x") =
      ⟨.error (.valueError "expire must be at most 10800 seconds (3 hours)"), false⟩ ∧
    (send_message "t" { user_key := "u", message := "m", priority := .EMERGENCY, retry := some 30, expire := some 10800 } (fun _ => .ok ()) (.netError "x")).outcome ≠
      .error (.valueError "retry must be at least 30 seconds") :=
  ⟨(C1_emergency_validation "t" _ _ _ rfl).1 (Or.inl rfl),
   (C1_emergency_validation "t" _ _ _ rfl).2.1 rfl rfl (by decide),
   (C1_emergency_validation "t" _ _ _ rfl).2.2.1 rfl rfl (by decide) (by decide),
   (C1_emergency_validation "t" _ _ _ rfl).2.2.2 rfl rfl _⟩

/-- Claim C2: for every priority other than EMERGENCY, a send with retry
and expire omitted never produces a ValidationError, whatever the file
system and transport do. -/
theorem C2_non_emergency_no_validation_error (tok : String) (a : SendArgs)
    (op : String → Except String Unit) (tr : TransportResult)
    (hp : a.priority ≠ Priority.EMERGENCY)
    (hr : a.retry = none) (he : a.expire = none) (m : String) :
    (send_message tok a op tr).outcome ≠ .error (.valueError m) := by
  have hex : emergencyExtra a = .ok [] := by simp [emergencyExtra, hp]
  exact send_message_no_valueError tok a op tr [] hex m

/-- Witness for C2 at priority LOW with retry and expire omitted. -/
theorem C2_non_emergency_no_validation_error_witness :
    (send_message "t" { user_key := "u", message := "m", priority := .LOW } (fun _ => .ok ()) (.netError "x")).outcome ≠
      .error (.valueError "Emergency priority requires retry and expire parameters") :=
  C2_non_emergency_no_validation_error "t" _ _ _ (by decide) rfl rfl _

/-- Claim C3: GlancesData validation rejects a title, text or subtext of
length 101 and accepts length 100, rejects percent outside 0..100 and
accepts the 0 and 100 boundaries, and update_glance maps a validation
failure to the raised ValidationError with no request sent. -/
theorem C3_glances_validation :
    (∀ t : String, t.length = 101 →
      ({ title := some t } : GlancesData).validate = .error "title must be 100 characters or less") ∧
    (∀ t : String, t.length = 100 → ({ title := some t } : GlancesData).validate = .ok ()) ∧
    (∀ t : String, t.length = 101 →
      ({ text := some t } : GlancesData).validate = .error "text must be 100 characters or less") ∧
    (∀ t : String, t.length = 100 → ({ text := some t } : GlancesData).validate = .ok ()) ∧
    (∀ t : String, t.length = 101 →
      ({ subtext := some t } : GlancesData).validate = .error "subtext must be 100 characters or less") ∧
    (∀ t : String, t.length = 100 → ({ subtext := some t } : GlancesData).validate = .ok ()) ∧
    ({ percent := some (-1) } : GlancesData).validate = .error "percent must be between 0 and 100" ∧
    ({ percent := some 101 } : GlancesData).validate = .error "percent must be between 0 and 100" ∧
    ({ percent := some 0 } : GlancesData).validate = .ok () ∧
    ({ percent := some 100 } : GlancesData).validate = .ok () ∧
    (∀ (tok user_key : String) (g : GlancesData) (device : Option String)
        (tr : TransportResult) (m : String), g.validate = .error m →
      update_glance tok user_key g device tr = ⟨.error (.valueError m), false⟩) := by
  refine ⟨?_, ?_, ?_, ?_, ?_, ?_, by decide, by decide, by decide, by decide, ?_⟩
  · intro t h
    have hne := length_ne_empty t h
    simp [GlancesData.validate, optStrTruthy, h, hne]
  · intro t h
    simp [GlancesData.validate, optStrTruthy, h]
  · intro t h
    have hne := length_ne_empty t h
    simp [GlancesData.validate, optStrTruthy, h, hne]
  · intro t h
    simp [GlancesData.validate, optStrTruthy, h]
  · intro t h
    have hne := length_ne_empty t h
    simp [GlancesData.validate, optStrTruthy, h, hne]
  · intro t h
    simp [GlancesData.validate, optStrTruthy, h]
  · intro tok user_key g device tr m hval
    simp [update_glance, hval]

/-- Witness for C3 at concrete strings of lengths 101 and 100 for each
text field, and a concrete percent violation through update_glance. -/
theorem C3_glances_validation_witness :
    ({ title := some (String.mk (List.replicate 101 'a')) } : GlancesData).validate = .error "title must be 100 characters or less" ∧
    ({ title := some (String.mk (List.replicate 100 'a')) } : GlancesData).validate = .ok () ∧
    ({ text := some (String.mk (List.replicate 101 'b')) } : GlancesData).validate = .error "text must be 100 characters or less" ∧
    ({ text := some (String.mk (List.replicate 100 'b')) } : GlancesData).validate = .ok () ∧
    ({ subtext := some (String.mk (List.replicate 101 'c')) } : GlancesData).validate = .error "subtext must be 100 characters or less" ∧
    ({ subtext := some (String.mk (List.replicate 100 'c')) } : GlancesData).validate = .ok () ∧
    update_glance "t" "u" { percent := some 101 } none (.netError "x") = ⟨.error (.valueError "percent must be between 0 and 100"), false⟩ :=
  ⟨C3_glances_validation.1 _ (by decide), C3_glances_validation.2.1 _ (by decide),
   C3_glances_validation.2.2.1 _ (by decide), C3_glances_validation.2.2.2.1 _ (by decide),
   C3_glances_validation.2.2.2.2.1 _ (by decide), C3_glances_validation.2.2.2.2.2.1 _ (by decide),
   C3_glances_validation.2.2.2.2.2.2.2.2.2.2 "t" "u" _ none _ _ (by decide)⟩

/-- Claim C4: the keys of a serialized GlancesData are precisely its set
fields, in declaration order, and GlancesData with only count = 5
serializes to exactly the one-entry dictionary. -/
theorem C4_glances_serialization_keys (g : GlancesData) :
    (g.to_dict.map Prod.fst =
      (if g.title.isSome then ["title"] else []) ++ (if g.text.isSome then ["text"] else []) ++
      (if g.subtext.isSome then ["subtext"] else []) ++ (if g.count.isSome then ["count"] else []) ++
      (if g.percent.isSome then ["percent"] else [])) ∧
    (GlancesData.mk none none none (some 5) none).to_dict = [("count", PVal.int 5)] := by
  constructor
  · obtain ⟨t, x, s, c, pc⟩ := g
    cases t <;> cases x <;> cases s <;> cases c <;> cases pc <;> rfl
  · rfl

/-- Claim C5: in every outgoing send payload the required fields token,
user, message and priority are present, and each of the nine optional
fields is present exactly when the supplied value is Python-truthy, so
an empty string, a zero or false leads to omission. -/
theorem C5_send_optional_field_inclusion (tok : String) (a : SendArgs) (p : Payload)
    (h : sendPayload tok a = .ok p) :
    hasKey p "token" = true ∧ hasKey p "user" = true ∧ hasKey p "message" = true ∧
    hasKey p "priority" = true ∧
    hasKey p "title" = optStrTruthy a.title ∧ hasKey p "device" = optStrTruthy a.device ∧
    hasKey p "sound" = optStrTruthy a.sound ∧ hasKey p "url" = optStrTruthy a.url ∧
    hasKey p "url_title" = optStrTruthy a.url_title ∧
    hasKey p "timestamp" = optIntTruthy a.timestamp ∧
    hasKey p "html" = a.html ∧ hasKey p "monospace" = a.monospace ∧
    hasKey p "ttl" = optIntTruthy a.ttl := by
  unfold sendPayload at h
  cases hex : emergencyExtra a with
  | error e => rw [hex] at h; exact absurd h (by simp)
  | ok ex =>
    rw [hex] at h
    replace h := Except.ok.inj h
    subst h
    refine ⟨?_, ?_, ?_, ?_, ?_, ?_, ?_, ?_, ?_, ?_, ?_, ?_, ?_⟩ <;>
      simp [hasKey_append, basePayload, hasKey_optEntry, hasKey_cons, hasKey_nil,
        hasKey_emergencyExtra a ex hex]

/-- Witness for C5: a concrete send payload with a supplied title and an
omitted ttl, the inclusion facts extracted from the theorem. -/
theorem C5_send_optional_field_inclusion_witness :
    sendPayload "t" { user_key := "u", message := "m", title := some "T" } =
      .ok [("token", PVal.str "t"), ("user", PVal.str "u"), ("message", PVal.str "m"),
           ("priority", PVal.int 0), ("title", PVal.str "T")] ∧
    hasKey [("token", PVal.str "t"), ("user", PVal.str "u"), ("message", PVal.str "m"),
            ("priority", PVal.int 0), ("title", PVal.str "T")] "title" = true ∧
    hasKey [("token", PVal.str "t"), ("user", PVal.str "u"), ("message", PVal.str "m"),
            ("priority", PVal.int 0), ("title", PVal.str "T")] "ttl" = false :=
  ⟨rfl,
   (C5_send_optional_field_inclusion "t" { user_key := "u", message := "m", title := some "T" } _ (by rfl)).2.2.2.2.1,
   (C5_send_optional_field_inclusion "t" { user_key := "u", message := "m", title := some "T" } _ (by rfl)).2.2.2.2.2.2.2.2.2.2.2.2⟩

/-- Claim C6, counterexample to the claim as stated: a response with
HTTP status 500 whose decoded body carries status 1 makes validate_user
return true, although the claim requires every non-200 response to yield
false — the source never consults the HTTP status code. -/
theorem C6_counterexample :
    validate_user "t" "u" none (.ok 500 (.ok [("status", PVal.int 1)])) = true ∧
    (500 : Int) ≠ 200 :=
  ⟨rfl, by decide⟩

/-- Claim C6 as amended: validate_user never raises; a transport failure
or a JSON decode failure yields false, and on any decodable body —
whatever the HTTP status code — the result is true exactly when the
status field of the body is the integer 1. -/
theorem C6_validate_user_behaviour (tok user_key : String) (device : Option String)
    (tr : TransportResult) :
    (∀ m, tr = .netError m → validate_user tok user_key device tr = false) ∧
    (∀ c e, tr = .ok c (.error e) → validate_user tok user_key device tr = false) ∧
    (∀ c data, tr = .ok c (.ok data) →
      (validate_user tok user_key device tr = true ↔ lookupKey data "status" = some (PVal.int 1))) := by
  refine ⟨?_, ?_, ?_⟩
  · intro m h
    subst h
    rfl
  · intro c e h
    subst h
    rfl
  · intro c data h
    subst h
    simp [validate_user]

/-- Witness for C6: a transport failure, a decode failure and a good
body with status 1, each at a concrete input. -/
theorem C6_validate_user_behaviour_witness :
    validate_user "t" "u" none (.netError "boom") = false ∧
    validate_user "t" "u" none (.ok 200 (.error "bad json")) = false ∧
    validate_user "t" "u" none (.ok 200 (.ok [("status", PVal.int 1)])) = true :=
  ⟨(C6_validate_user_behaviour "t" "u" none _).1 "boom" rfl,
   (C6_validate_user_behaviour "t" "u" none _).2.1 200 "bad json" rfl,
   ((C6_validate_user_behaviour "t" "u" none _).2.2 200 _ rfl).mpr rfl⟩

/-- Claim C7: cancel_emergency returns true exactly when the round trip
ended with HTTP status 200; every other status and every raised
transport exception yields false, and the function is total, so no
exception propagates. -/
theorem C7_cancel_emergency_iff_200 (tok receipt : String) (tr : CancelTransport) :
    cancel_emergency tok receipt tr = true ↔ tr = CancelTransport.ok 200 := by
  cases tr with
  | ok c => simp [cancel_emergency]
  | exn m => simp [cancel_emergency]

/-- Claim C8: when the payload is valid, a truthy attachment whose open
fails makes send_message raise the wrapping PushoverError built from the
underlying message, with no request sent, whatever the transport would
have done. -/
theorem C8_attachment_failure_local (tok : String) (a : SendArgs)
    (op : String → Except String Unit) (tr : TransportResult) (p : Payload)
    (hp : sendPayload tok a = .ok p)
    (hatt : optStrTruthy a.attachment = true) (e : String)
    (hop : op (a.attachment.getD "") = .error e) :
    send_message tok a op tr =
      ⟨.error (.pushoverError ("Failed to read attachment: " ++ e)), false⟩ := by
  have hat : attachmentStep op a = .error (.pushoverError ("Failed to read attachment: " ++ e)) := by
    simp [attachmentStep, hatt, hop]
  unfold send_message
  rw [hp, hat]

/-- Witness for C8: a concrete unreadable attachment path; the transport
argument is a successful response, so the equality also shows the
request result is ignored — nothing was sent. -/
theorem C8_attachment_failure_local_witness :
    send_message "t" { user_key := "u", message := "m", attachment := some "/no/file.jpg" }
        (fun _ => .error "No such file") (.ok 200 (.ok [("status", PVal.int 1), ("request", PVal.str "r")])) =
      ⟨.error (.pushoverError "Failed to read attachment: No such file"), false⟩ :=
  C8_attachment_failure_local "t" _ _ _ _ (by rfl) (by rfl) "No such file" (by rfl)

/-- Claim C9, counterexample to the claim as stated: a 200 response with
an empty decoded body makes send_message raise the KeyError for the
status field, not the malformed-response PushoverError the claim
requires. -/
theorem C9_counterexample :
    (send_message "t" { user_key := "u", message := "m" } (fun _ => .ok ())
        (.ok 200 (.ok []))).outcome = .error (.keyError "status") := by
  decide

/-- Claim C9 as amended: a 200 response whose decoded body is missing
the status field raises the uncaught KeyError for status, and one with
status present but missing the request field raises the uncaught
KeyError for request; in both cases the request had already been
sent. -/
theorem C9_missing_field_keyerror (tok : String) (a : SendArgs)
    (op : String → Except String Unit) (p : Payload)
    (hp : sendPayload tok a = .ok p) (ha : a.attachment = none)
    (data : Payload) :
    (lookupKey data "status" = none →
      send_message tok a op (.ok 200 (.ok data)) = ⟨.error (.keyError "status"), true⟩) ∧
    (∀ st, lookupKey data "status" = some st → lookupKey data "request" = none →
      send_message tok a op (.ok 200 (.ok data)) = ⟨.error (.keyError "request"), true⟩) := by
  have hat : attachmentStep op a = .ok false := by
    simp [attachmentStep, ha, optStrTruthy]
  constructor
  · intro hs
    unfold send_message
    rw [hp, hat]
    simp [handleResponse, hs]
  · intro st hs hr
    unfold send_message
    rw [hp, hat]
    simp [handleResponse, hs, hr]

/-- Witness for C9 at a concrete body that has status but no request
field. -/
theorem C9_missing_field_keyerror_witness :
    send_message "t" { user_key := "u", message := "m" } (fun _ => .ok ())
        (.ok 200 (.ok [("status", PVal.int 1)])) = ⟨.error (.keyError "request"), true⟩ :=
  (C9_missing_field_keyerror "t" _ _ _ (by rfl) rfl _).2 (PVal.int 1) rfl rfl

/-- Claim C10: in GlancesData serialization zero is a set value, not
unset: count = 0 and percent = 0 each serialize to exactly their
one-entry dictionary, presence of count and percent keys coincides with
the field being set, while the send payload drops a supplied zero ttl or
timestamp. -/
theorem C10_glances_zero_is_set :
    (GlancesData.mk none none none (some 0) none).to_dict = [("count", PVal.int 0)] ∧
    (GlancesData.mk none none none none (some 0)).to_dict = [("percent", PVal.int 0)] ∧
    (∀ g : GlancesData, hasKey g.to_dict "count" = g.count.isSome) ∧
    (∀ g : GlancesData, hasKey g.to_dict "percent" = g.percent.isSome) ∧
    hasKey (basePayload "t" { user_key := "u", message := "m", ttl := some 0 }) "ttl" = false ∧
    hasKey (basePayload "t" { user_key := "u", message := "m", timestamp := some 0 }) "timestamp" = false := by
  refine ⟨rfl, rfl, ?_, ?_, by decide, by decide⟩
  · intro g
    obtain ⟨t, x, s, c, pc⟩ := g
    cases t <;> cases x <;> cases s <;> cases c <;> cases pc <;> rfl
  · intro g
    obtain ⟨t, x, s, c, pc⟩ := g
    cases t <;> cases x <;> cases s <;> cases c <;> cases pc <;> rfl
